import Mathlib

/-
Verification of the ORP data-logger firmware (src/unnamed/part_001, the final
sketch version) against its natural-language specification.  The sketch is a
single-threaded Arduino polling loop; we embed the global variables as an
explicit `State` record and each C function as a state-passing Lean function.
Machine floats are modelled as exact rationals (every value the development
evaluates is exactly representable), `byte`/`unsigned` counters as `Nat`, and
the signed `long logFreq` together with the epoch timestamps as `Int`
(no claim exercises 32-bit wrap-around).
-/

namespace ORPLogger

set_option maxRecDepth 8000

/-! ## Constants (part_001 lines 49-62) -/

def RIGHT_10BIT : Nat := 0
def UP_10BIT : Nat := 145
def DOWN_10BIT : Nat := 329
def LEFT_10BIT : Nat := 505
def SELECT_10BIT : Nat := 741
def HYSTERESIS : Nat := 10

/-- The button identities of part_001 lines 56-62. -/
inductive Button where
  | none
  | right
  | up
  | down
  | left
  | select
deriving DecidableEq, Repr

/-! ## Global program state

One field per mutable global of part_001 that the control logic touches
(lines 73-92).  `rxLines` models the SoftwareSerial receive side: the queue of
complete carriage-return-terminated lines (terminator stripped) that have
arrived from the sensor and not yet been consumed by `readBytesUntil`. -/

structure State where
  buttonJustPressed : Bool
  buttonJustReleased : Bool
  buttonWas : Button
  rxLines : List String
  sensor_data : String
  ORP : ℚ
  ORPvalue : ℚ
  avgORP : ℚ
  string_received : Bool
  logData : Bool
  nextDataPoint : ℤ
  logFreq : ℤ
  counter : Nat
deriving DecidableEq, Repr

/-- Initial values of the globals (part_001 lines 73-92; `nextDataPoint` is an
uninitialised C++ global and is therefore zero-initialised; the `sensor_data`
buffer starts zeroed, i.e. as the empty string). -/
def initState : State where
  buttonJustPressed := false
  buttonJustReleased := false
  buttonWas := Button.none
  rxLines := []
  sensor_data := ""
  ORP := 0
  ORPvalue := 0
  avgORP := 0
  string_received := false
  logData := false
  nextDataPoint := 0
  logFreq := 5
  counter := 1

/-- Delivery of a line by the serial environment: a line that has finished
arriving by the time the cycle reads the port is appended to the receive
queue. -/
def enqueue (arrived : Option String) (s : State) : State :=
  match arrived with
  | some l => { s with rxLines := s.rxLines ++ [l] }
  | Option.none => s

/-! ## ReadButtons (part_001 lines 182-228) -/

/-- The threshold chain of part_001 lines 190-213, mapping a raw 10-bit ADC
value to a button identity.  `button` starts as `BUTTON_NONE` and the five
range tests are a sequential if/else-if chain. -/
def classify (buttonVoltage : Nat) : Button :=
  if buttonVoltage < RIGHT_10BIT + HYSTERESIS then Button.right
  else if UP_10BIT - HYSTERESIS ≤ buttonVoltage ∧ buttonVoltage ≤ UP_10BIT + HYSTERESIS then
    Button.up
  else if DOWN_10BIT - HYSTERESIS ≤ buttonVoltage ∧ buttonVoltage ≤ DOWN_10BIT + HYSTERESIS then
    Button.down
  else if LEFT_10BIT - HYSTERESIS ≤ buttonVoltage ∧ buttonVoltage ≤ LEFT_10BIT + HYSTERESIS then
    Button.left
  else if SELECT_10BIT - HYSTERESIS ≤ buttonVoltage ∧ buttonVoltage ≤ SELECT_10BIT + HYSTERESIS then
    Button.select
  else Button.none

/-- ReadButtons (part_001 lines 182-228): classify the ADC sample, update the
edge flags from the previous/current pair, remember the sample, return it. -/
def ReadButtons (buttonVoltage : Nat) (s : State) : Button × State :=
  let button := classify buttonVoltage
  let s :=
    if s.buttonWas = Button.none ∧ button ≠ Button.none then
      { s with buttonJustPressed := true, buttonJustReleased := false }
    else s
  let s :=
    if s.buttonWas ≠ Button.none ∧ button = Button.none then
      { s with buttonJustPressed := false, buttonJustReleased := true }
    else s
  (button, { s with buttonWas := button })

/-! ## atof (avr-libc, used at part_001 line 384)

Standard decimal parsing of the NUL-terminated receive buffer: optional
leading whitespace and sign, integer digits, optional fraction.  The sensor
never sends exponent notation, so it is not modelled.  An entirely malformed
buffer parses to 0. -/

def digitVal (c : Char) : Nat := c.toNat - 48

def readDigits : List Char → Nat → Nat × List Char
  | [], acc => (acc, [])
  | c :: cs, acc =>
    if c.isDigit then readDigits cs (10 * acc + digitVal c) else (acc, c :: cs)

def fracDigits : List Char → ℚ
  | [] => 0
  | c :: cs => if c.isDigit then ((digitVal c : ℚ) + fracDigits cs) / 10 else 0

def atofCore (cs : List Char) : ℚ :=
  let p := readDigits cs 0
  match p.2 with
  | '.' :: rest => (p.1 : ℚ) + fracDigits rest
  | _ => (p.1 : ℚ)

def atof (str : String) : ℚ :=
  let cs := str.data.dropWhile (fun c => c == ' ' || c == '\t')
  match cs with
  | '-' :: rest => - atofCore rest
  | '+' :: rest => atofCore rest
  | _ => atofCore cs

/-! ## getORPdata (part_001 lines 371-393) -/

/-- getORPdata: if a complete line is available, read it (up to 20 bytes) into
`sensor_data` and set `string_received`; send the read command `R\r`; if
`string_received` is set, re-parse `sensor_data` into `ORP`; return `ORP`.
The trailing `string_received = 0;` of the source stands after the `return`
statement and never executes, so the flag stays set once any line has been
received.  Returns (reading, new state, commands sent to the sensor). -/
def getORPdata (s : State) : ℚ × State × List String :=
  let s :=
    match s.rxLines with
    | l :: rest =>
      { s with sensor_data := l.take 20, rxLines := rest, string_received := true }
    | [] => s
  let cmds := ["R\r"]
  let s := if s.string_received then { s with ORP := atof s.sensor_data } else s
  (s.ORP, s, cmds)

/-! ## The averaging block (part_001 lines 326-337, repeated at 407-416) -/

/-- The averaging block shared verbatim by loop() and startCalibration(): while
`counter < 4` the current `getORPdata()` return value is folded with
`avgORP = (avgORP + reading) / counter` and the counter incremented; on the
fourth cycle nothing is read and the accumulated average is published into
`ORPvalue` with the counter reset to 1. -/
def averageStep (s : State) : State × List String :=
  if s.counter < 4 then
    let t := getORPdata s
    ({ t.2.1 with
        avgORP := (t.2.1.avgORP + t.1) / (t.2.1.counter : ℚ),
        counter := t.2.1.counter + 1 },
      t.2.2)
  else
    ({ s with counter := 1, ORPvalue := s.avgORP }, [])

/-! ## Display column for the reading (part_001 lines 339-354, 418-433) -/

/-- Cursor column at which the value is printed (lines 339-349).  The
subsequent `if (ORPvalue < 0) orpPos = orpPos--;` at line 349 assigns the
post-decrement expression's value — the original `orpPos` — back to `orpPos`,
so the statement leaves the column unchanged and contributes nothing here. -/
def orpPos (v : ℚ) : Nat :=
  if |v / 1000| ≥ 1 then 9
  else if |v / 100| ≥ 1 then 10
  else if |v / 10| ≥ 1 then 11
  else 12

/-- Column of the fixed unit suffix: `lcd.setCursor(14,1); lcd.print("mV");`
(lines 353-354). -/
def mvCursorCol : Nat := 14

/-! ## DataLogger periodic check (part_001 lines 356-367) -/

/-- The logging-cadence check at the end of each main-loop cycle: while
`logData` is set and the current time has reached `nextDataPoint`, emit one
record of the published value via LogData and reschedule.  A record is
modelled as the (timestamp, value) pair that LogData formats. -/
def dataLoggerTick (now : Nat) (s : State) : State × List (Nat × ℚ) :=
  if s.logData then
    if (now : ℤ) ≥ s.nextDataPoint then
      ({ s with nextDataPoint := (now : ℤ) + s.logFreq }, [(now, s.ORPvalue)])
    else (s, [])
  else (s, [])

/-! ## startCalibration (part_001 lines 395-444) -/

/-- One iteration of the calibration do-while body: the averaging block, the
value rendering (display only), a button sample, and the forwarding of
UP/DOWN/SELECT as `+`/`-`/`X`.  The iteration's environment input is the ADC
sample plus an optionally arrived sensor line. -/
def calibIter (inp : Nat × Option String) (s : State) : State × List String × Button :=
  let s := enqueue inp.2 s
  let t := averageStep s
  let r := ReadButtons inp.1 t.1
  let cmds := t.2
  let cmds := cmds ++ (if r.1 = Button.up then ["+\r"] else [])
  let cmds := cmds ++ (if r.1 = Button.down then ["-\r"] else [])
  let cmds := cmds ++ (if r.1 = Button.select then ["X\r"] else [])
  (r.2, cmds, r.1)

/-- The do-while of startCalibration, driven by a finite list of environment
inputs: iterate until LEFT is sampled, then send `E\r`; `none` when the inputs
run out before LEFT (the real loop would keep polling). -/
def calibRun : List (Nat × Option String) → State → Option (State × List String)
  | [], _ => Option.none
  | inp :: rest, s =>
    let t := calibIter inp s
    if t.2.2 = Button.left then some (t.1, t.2.1 ++ ["E\r"])
    else
      match calibRun rest t.1 with
      | some u => some (u.1, t.2.1 ++ u.2)
      | Option.none => Option.none

/-- startCalibration (lines 395-444): banner (display only), the calibration
entry command `C\r`, then the do-while loop. -/
def startCalibration (inputs : List (Nat × Option String)) (s : State) :
    Option (State × List String) :=
  match calibRun inputs s with
  | some u => some (u.1, "C\r" :: u.2)
  | Option.none => Option.none

/-! ## setLogFreq (part_001 lines 446-474) -/

/-- One iteration of the log-frequency do-while body: sample a button, apply
UP/DOWN as plus/minus 5 with the floor clamp at 5, re-render (display only). -/
def setLogFreqIter (adc : Nat) (s : State) : State × Button :=
  let r := ReadButtons adc s
  let s := r.2
  let lf := if r.1 = Button.up then s.logFreq + 5 else s.logFreq
  let lf := if r.1 = Button.down then lf - 5 else lf
  let lf := if lf < 5 then 5 else lf
  ({ s with logFreq := lf }, r.1)

/-- The do-while of setLogFreq: iterate until RIGHT is sampled; `none` when
the inputs run out before RIGHT. -/
def setLogFreqRun : List Nat → State → Option State
  | [], _ => Option.none
  | adc :: rest, s =>
    let t := setLogFreqIter adc s
    if t.2 = Button.right then some t.1 else setLogFreqRun rest t.1

/-! ## The main loop (part_001 lines 256-369) -/

/-- Environment inputs of one main-loop cycle: the ADC sample, an optionally
arrived sensor line, the RTC's unix time, and — for the two blocking modal
sub-loops — the input streams that drive them should they be entered. -/
structure CycleInput where
  adc : Nat
  arrived : Option String
  now : Nat
  calibInputs : List (Nat × Option String)
  freqInputs : List Nat

/-- Observable outputs of one cycle: commands written to the sensor serial
link and records emitted by LogData. -/
structure CycleOut where
  sensorCmds : List String
  records : List (Nat × ℚ)
deriving DecidableEq, Repr

/-- The switch over the sampled button (part_001 lines 278-324).  RIGHT and
LEFT enter the blocking modal sub-loops; SELECT toggles `logData`, and when it
turns logging on, immediately logs one record and schedules the next; UP and
DOWN do nothing from the main screen.  The flag-reset block at lines 319-323
sits inside the switch body after the final `break` and never executes, so no
edge flag is cleared here. -/
def dispatch (button : Button) (inp : CycleInput) (s : State) :
    Option (State × List String × List (Nat × ℚ)) :=
  match button with
  | Button.none => some (s, [], [])
  | Button.right =>
    match startCalibration inp.calibInputs s with
    | some u => some (u.1, u.2, [])
    | Option.none => Option.none
  | Button.up => some (s, [], [])
  | Button.down => some (s, [], [])
  | Button.left =>
    match setLogFreqRun inp.freqInputs s with
    | some s1 => some (s1, [], [])
    | Option.none => Option.none
  | Button.select =>
    let s := { s with logData := !s.logData }
    if s.logData then
      some ({ s with nextDataPoint := (inp.now : ℤ) + s.logFreq }, [], [(inp.now, s.ORPvalue)])
    else some (s, [], [])

/-- One cycle of loop() (lines 256-369): date/time redraw (display only),
button sampling, feedback-row blanking (display only), the dispatch switch,
the averaging block, the value rendering (display only, at column
`orpPos ORPvalue` with `mV` at `mvCursorCol`), and the logging check.
`none` means the cycle never completed because a modal sub-loop's inputs ran
out before its exit button. -/
def mainCycle (inp : CycleInput) (s : State) : Option (State × CycleOut) :=
  let s := enqueue inp.arrived s
  let r := ReadButtons inp.adc s
  match dispatch r.1 inp r.2 with
  | Option.none => Option.none
  | some d =>
    let t := averageStep d.1
    let u := dataLoggerTick inp.now t.1
    some (u.1, { sensorCmds := d.2.1 ++ t.2, records := d.2.2 ++ u.2 })

/-- A cycle input that presses no button and delivers no line. -/
def noInput : CycleInput where
  adc := 1000
  arrived := Option.none
  now := 0
  calibInputs := []
  freqInputs := []

/-- The state after one main-loop cycle, outputs discarded. -/
def stepMain (inp : CycleInput) (s : State) : Option State :=
  (mainCycle inp s).map Prod.fst

/-- A finite run of consecutive main-loop cycles. -/
def runMain : List CycleInput → State → Option State
  | [], s => some s
  | i :: is, s =>
    match stepMain i s with
    | some s1 => runMain is s1
    | Option.none => Option.none

/-- A no-button cycle in which the sensor line `l` arrives. -/
def rIn (l : String) : CycleInput :=
  { adc := 1000, arrived := some l, now := 0, calibInputs := [], freqInputs := [] }

/-! ## Reachability

One transition per place where the program crosses a poll-cycle boundary: a
full main-loop cycle, one calibration do-while iteration, or one
log-frequency do-while iteration. -/

inductive Step : State → State → Prop
  | main (inp : CycleInput) (s s' : State) : stepMain inp s = some s' → Step s s'
  | calib (inp : Nat × Option String) (s : State) : Step s (calibIter inp s).1
  | freq (adc : Nat) (s : State) : Step s (setLogFreqIter adc s).1

inductive Reachable : State → Prop
  | init : Reachable initState
  | step {s s' : State} : Reachable s → Step s s' → Reachable s'

/-! ## Helper lemmas -/

theorem ReadButtons_fst (v : Nat) (s : State) : (ReadButtons v s).1 = classify v := by
  simp only [ReadButtons]

theorem ReadButtons_eq (v : Nat) (s : State) :
    ReadButtons v s = (classify v,
      { s with
          buttonJustPressed :=
            if s.buttonWas = Button.none ∧ classify v ≠ Button.none then true
            else if s.buttonWas ≠ Button.none ∧ classify v = Button.none then false
            else s.buttonJustPressed,
          buttonJustReleased :=
            if s.buttonWas = Button.none ∧ classify v ≠ Button.none then false
            else if s.buttonWas ≠ Button.none ∧ classify v = Button.none then true
            else s.buttonJustReleased,
          buttonWas := classify v }) := by
  simp only [ReadButtons]
  split_ifs with h1 h2 h2 <;> simp_all

theorem enqueue_counter (a : Option String) (s : State) :
    (enqueue a s).counter = s.counter := by
  cases a <;> rfl

theorem getORPdata_counter (s : State) : ((getORPdata s).2.1).counter = s.counter := by
  simp only [getORPdata]
  cases s.rxLines <;> split_ifs <;> rfl

theorem averageStep_counter (s : State) :
    ((averageStep s).1).counter = if s.counter < 4 then s.counter + 1 else 1 := by
  simp only [averageStep]
  split_ifs with h
  · simp [getORPdata_counter]
  · rfl

theorem dataLoggerTick_counter (now : Nat) (s : State) :
    ((dataLoggerTick now s).1).counter = s.counter := by
  simp only [dataLoggerTick]
  split_ifs <;> rfl

theorem calibIter_counter (inp : Nat × Option String) (s : State) :
    ((calibIter inp s).1).counter = if s.counter < 4 then s.counter + 1 else 1 := by
  simp only [calibIter, ReadButtons_eq]
  rw [averageStep_counter, enqueue_counter]

theorem setLogFreqIter_counter (adc : Nat) (s : State) :
    ((setLogFreqIter adc s).1).counter = s.counter := by
  simp only [setLogFreqIter, ReadButtons_eq]

theorem ReadButtons_counter (v : Nat) (s : State) :
    ((ReadButtons v s).2).counter = s.counter := by
  rw [ReadButtons_eq]

/-- The counter range that actually holds at every poll-cycle boundary. -/
def CounterInv (s : State) : Prop := 1 ≤ s.counter ∧ s.counter ≤ 4

theorem counterInv_averageStep {s : State} (h : CounterInv s) :
    CounterInv (averageStep s).1 := by
  unfold CounterInv at h ⊢
  rw [averageStep_counter]
  split_ifs <;> omega

theorem counterInv_calibIter {s : State} (inp : Nat × Option String) (h : CounterInv s) :
    CounterInv (calibIter inp s).1 := by
  unfold CounterInv at h ⊢
  rw [calibIter_counter]
  split_ifs <;> omega

theorem counterInv_calibRun (inputs : List (Nat × Option String)) :
    ∀ s r, CounterInv s → calibRun inputs s = some r → CounterInv r.1 := by
  induction inputs with
  | nil => intro s r _ hr; simp [calibRun] at hr
  | cons inp rest ih =>
    intro s r h hr
    have h1 : CounterInv (calibIter inp s).1 := counterInv_calibIter inp h
    simp only [calibRun] at hr
    split_ifs at hr with hb
    · cases hr
      exact h1
    · revert hr
      cases hm : calibRun rest (calibIter inp s).1 with
      | none => intro hr; cases hr
      | some u =>
        intro hr
        cases hr
        exact ih _ u h1 hm

theorem counterInv_setLogFreqRun (inputs : List Nat) :
    ∀ s r, CounterInv s → setLogFreqRun inputs s = some r → CounterInv r := by
  induction inputs with
  | nil => intro s r _ hr; simp [setLogFreqRun] at hr
  | cons adc rest ih =>
    intro s r h hr
    have h1 : CounterInv (setLogFreqIter adc s).1 := by
      unfold CounterInv at h ⊢
      rw [setLogFreqIter_counter]
      exact h
    simp only [setLogFreqRun] at hr
    split_ifs at hr with hb
    · cases hr; exact h1
    · exact ih _ _ h1 hr

theorem counterInv_dispatch {b : Button} {inp : CycleInput} {s : State}
    {d : State × List String × List (Nat × ℚ)} (h : CounterInv s)
    (hd : dispatch b inp s = some d) : CounterInv d.1 := by
  cases b <;> simp only [dispatch] at hd
  · cases hd; exact h
  · revert hd
    cases hm : startCalibration inp.calibInputs s with
    | none => intro hd; cases hd
    | some u =>
      intro hd
      cases hd
      unfold startCalibration at hm
      revert hm
      cases hc : calibRun inp.calibInputs s with
      | none => intro hm; cases hm
      | some w => intro hm; cases hm; exact counterInv_calibRun _ _ _ h hc
  · cases hd; exact h
  · cases hd; exact h
  · revert hd
    cases hm : setLogFreqRun inp.freqInputs s with
    | none => intro hd; cases hd
    | some s1 => intro hd; cases hd; exact counterInv_setLogFreqRun _ _ _ h hm
  · split_ifs at hd <;> (cases hd; exact h)

theorem counterInv_mainCycle {inp : CycleInput} {s : State} {r : State × CycleOut}
    (h : CounterInv s) (hm : mainCycle inp s = some r) : CounterInv r.1 := by
  simp only [mainCycle] at hm
  revert hm
  cases hd : dispatch (ReadButtons inp.adc (enqueue inp.arrived s)).1 inp
      (ReadButtons inp.adc (enqueue inp.arrived s)).2 with
  | none => intro hm; cases hm
  | some d =>
    intro hm
    cases hm
    have hs : CounterInv (ReadButtons inp.adc (enqueue inp.arrived s)).2 := by
      unfold CounterInv at h ⊢
      rw [ReadButtons_counter, enqueue_counter]
      exact h
    have hd1 : CounterInv d.1 := counterInv_dispatch hs hd
    have ha : CounterInv (averageStep d.1).1 := counterInv_averageStep hd1
    unfold CounterInv at ha ⊢
    rw [dataLoggerTick_counter]
    exact ha

theorem counterInv_step {s s' : State} (h : CounterInv s) (hs : Step s s') :
    CounterInv s' := by
  cases hs with
  | main inp _ _ hm =>
    unfold stepMain at hm
    revert hm
    cases hc : mainCycle inp s with
    | none => intro hm; cases hm
    | some r =>
      intro hm
      simp only [Option.map_some'] at hm
      cases hm
      exact counterInv_mainCycle h hc
  | calib inp _ => exact counterInv_calibIter inp h
  | freq adc _ =>
    unfold CounterInv at h ⊢
    rw [setLogFreqIter_counter]
    exact h

theorem runMain_reachable (is : List CycleInput) :
    ∀ s s', Reachable s → runMain is s = some s' → Reachable s' := by
  induction is with
  | nil =>
    intro s s' h hr
    simp only [runMain] at hr
    cases hr
    exact h
  | cons i rest ih =>
    intro s s' h hr
    simp only [runMain] at hr
    revert hr
    cases hm : stepMain i s with
    | none => intro hr; cases hr
    | some s1 =>
      intro hr
      exact ih _ _ (Reachable.step h (Step.main i s s1 hm)) hr

theorem enqueue_logData (a : Option String) (s : State) :
    (enqueue a s).logData = s.logData := by
  cases a <;> rfl

theorem ReadButtons_logData (v : Nat) (s : State) :
    ((ReadButtons v s).2).logData = s.logData := by
  rw [ReadButtons_eq]

theorem getORPdata_logData (s : State) : ((getORPdata s).2.1).logData = s.logData := by
  simp only [getORPdata]
  cases s.rxLines <;> split_ifs <;> rfl

theorem averageStep_logData (s : State) : ((averageStep s).1).logData = s.logData := by
  simp only [averageStep]
  split_ifs with h
  · simp [getORPdata_logData]
  · rfl

theorem dataLoggerTick_logData (now : Nat) (s : State) :
    ((dataLoggerTick now s).1).logData = s.logData := by
  simp only [dataLoggerTick]
  split_ifs <;> rfl

theorem calibIter_button (inp : Nat × Option String) (s : State) :
    (calibIter inp s).2.2 = classify inp.1 := by
  simp only [calibIter, ReadButtons_fst]

theorem setLogFreqIter_button (adc : Nat) (s : State) :
    (setLogFreqIter adc s).2 = classify adc := by
  simp only [setLogFreqIter, ReadButtons_fst]

theorem dataLoggerTick_ORP (now : Nat) (s : State) :
    ((dataLoggerTick now s).1).ORP = s.ORP := by
  simp only [dataLoggerTick]
  split_ifs <;> rfl

theorem dataLoggerTick_avgORP (now : Nat) (s : State) :
    ((dataLoggerTick now s).1).avgORP = s.avgORP := by
  simp only [dataLoggerTick]
  split_ifs <;> rfl

theorem dataLoggerTick_sensor_data (now : Nat) (s : State) :
    ((dataLoggerTick now s).1).sensor_data = s.sensor_data := by
  simp only [dataLoggerTick]
  split_ifs <;> rfl

theorem ReadButtons_logFreq (v : Nat) (s : State) :
    ((ReadButtons v s).2).logFreq = s.logFreq := by
  rw [ReadButtons_eq]

theorem calibRun_exits_iff (inputs : List (Nat × Option String)) :
    ∀ s : State, (∃ r, calibRun inputs s = some r) ↔
      ∃ p ∈ inputs, classify p.1 = Button.left := by
  induction inputs with
  | nil => intro s; simp [calibRun]
  | cons inp rest ih =>
    intro s
    simp only [calibRun, calibIter_button]
    by_cases hb : classify inp.1 = Button.left
    · simp [hb]
    · simp only [List.mem_cons]
      rw [if_neg hb]
      constructor
      · rintro ⟨r, hr⟩
        revert hr
        cases hm : calibRun rest (calibIter inp s).1 with
        | none => intro hr; cases hr
        | some u =>
          intro _
          obtain ⟨p, hp, hpl⟩ := (ih (calibIter inp s).1).mp ⟨u, hm⟩
          exact ⟨p, Or.inr hp, hpl⟩
      · rintro ⟨p, hp, hpl⟩
        rcases hp with hp | hp
        · exact absurd (hp ▸ hpl) hb
        · obtain ⟨u, hu⟩ := (ih (calibIter inp s).1).mpr ⟨p, hp, hpl⟩
          rw [hu]
          exact ⟨_, rfl⟩

theorem startCalibration_some_iff (inputs : List (Nat × Option String)) (s : State) :
    (∃ r, startCalibration inputs s = some r) ↔ ∃ r, calibRun inputs s = some r := by
  unfold startCalibration
  cases hm : calibRun inputs s with
  | none => simp
  | some u => simp

theorem calibRun_last_cmd (inputs : List (Nat × Option String)) :
    ∀ (s : State) r, calibRun inputs s = some r → r.2.getLast? = some ("E\r") := by
  induction inputs with
  | nil => intro s r hr; simp [calibRun] at hr
  | cons inp rest ih =>
    intro s r hr
    simp only [calibRun] at hr
    split_ifs at hr with hb
    · cases hr
      rw [List.getLast?_append_of_ne_nil _ (by simp)]
      rfl
    · revert hr
      cases hm : calibRun rest (calibIter inp s).1 with
      | none => intro hr; cases hr
      | some u =>
        intro hr
        cases hr
        have h2 := ih _ u hm
        have hne : u.2 ≠ [] := by
          intro h
          rw [h] at h2
          cases h2
        rw [List.getLast?_append_of_ne_nil _ hne]
        exact h2

theorem startCalibration_head_cmd (inputs : List (Nat × Option String)) (s : State)
    (r : State × List String) (hr : startCalibration inputs s = some r) :
    r.2.head? = some ("C\r") := by
  unfold startCalibration at hr
  revert hr
  cases hm : calibRun inputs s with
  | none => intro hr; cases hr
  | some u => intro hr; cases hr; rfl

theorem startCalibration_last_cmd (inputs : List (Nat × Option String)) (s : State)
    (r : State × List String) (hr : startCalibration inputs s = some r) :
    r.2.getLast? = some ("E\r") := by
  unfold startCalibration at hr
  revert hr
  cases hm : calibRun inputs s with
  | none => intro hr; cases hr
  | some u =>
    intro hr
    cases hr
    have h2 := calibRun_last_cmd inputs _ u hm
    have hne : u.2 ≠ [] := by
      intro h
      rw [h] at h2
      cases h2
    rw [show (("C\r") :: u.2) = [("C\r")] ++ u.2 from rfl,
      List.getLast?_append_of_ne_nil _ hne]
    exact h2

theorem dispatch_right_cmds (inp : CycleInput) (s : State)
    {d : State × List String × List (Nat × ℚ)}
    (hd : dispatch Button.right inp s = some d) :
    d.2.1.head? = some ("C\r") := by
  simp only [dispatch] at hd
  revert hd
  cases hm : startCalibration inp.calibInputs s with
  | none => intro hd; cases hd
  | some u =>
    intro hd
    cases hd
    exact startCalibration_head_cmd _ _ _ hm

theorem mainCycle_right_head (inp : CycleInput) (s : State) (r : State × CycleOut)
    (hb : classify inp.adc = Button.right) (hm : mainCycle inp s = some r) :
    r.2.sensorCmds.head? = some ("C\r") := by
  simp only [mainCycle] at hm
  revert hm
  cases hd : dispatch (ReadButtons inp.adc (enqueue inp.arrived s)).1 inp
      (ReadButtons inp.adc (enqueue inp.arrived s)).2 with
  | none => intro hm; cases hm
  | some d =>
    intro hm
    cases hm
    rw [ReadButtons_fst, hb] at hd
    have hh := dispatch_right_cmds inp _ hd
    revert hh
    cases hl : d.2.1 with
    | nil => intro hh; cases hh
    | cons c tl =>
      intro hh
      simp only [List.head?] at hh ⊢
      simp [hl, ← hh]

theorem setLogFreqRun_exits_iff (inputs : List Nat) :
    ∀ s : State, (∃ r, setLogFreqRun inputs s = some r) ↔
      ∃ adc ∈ inputs, classify adc = Button.right := by
  induction inputs with
  | nil => intro s; simp [setLogFreqRun]
  | cons adc rest ih =>
    intro s
    simp only [setLogFreqRun, setLogFreqIter_button, List.mem_cons]
    by_cases hb : classify adc = Button.right
    · simp [hb]
    · rw [if_neg hb]
      constructor
      · rintro ⟨r, hr⟩
        obtain ⟨a, ha, hal⟩ := (ih (setLogFreqIter adc s).1).mp ⟨r, hr⟩
        exact ⟨a, Or.inr ha, hal⟩
      · rintro ⟨a, ha, hal⟩
        rcases ha with ha | ha
        · exact absurd (ha ▸ hal) hb
        · exact (ih (setLogFreqIter adc s).1).mpr ⟨a, ha, hal⟩

theorem mainCycle_select (inp : CycleInput) (s : State)
    (hb : classify inp.adc = Button.select) :
    ∃ r, mainCycle inp s = some r ∧ r.1.logData = !s.logData := by
  have hX : ((ReadButtons inp.adc (enqueue inp.arrived s)).2).logData = s.logData := by
    rw [ReadButtons_logData, enqueue_logData]
  cases hld : s.logData <;>
    simp [mainCycle, ReadButtons_fst, hb, dispatch, hX, hld, averageStep_logData,
      dataLoggerTick_logData]

/-! ## Claim theorems -/

/-- C1, counterexample: folding the reading 10 into a fresh averager
(avg = 0, counter = 1) under the code's recurrence yields avg = 10 with the
counter at 2 — not the avg = 5 the claim states, because the code divides by
the counter value 1 before incrementing it. -/
theorem averager_fold_counterexample :
    (runMain [rIn ("10")] initState).map (fun s => (s.avgORP, s.counter)) =
      some ((10 : ℚ), 2) ∧ ((10 : ℚ), 2) ≠ ((5 : ℚ), 2) := by
  constructor
  · simp [runMain, stepMain, rIn, mainCycle, enqueue, ReadButtons, classify, dispatch,
      averageStep, getORPdata, atof, atofCore, readDigits, fracDigits, digitVal,
      dataLoggerTick, initState, RIGHT_10BIT, UP_10BIT, DOWN_10BIT, LEFT_10BIT,
      SELECT_10BIT, HYSTERESIS]
  · norm_num

/-- C1, amended: from a fresh averager, the cycles that deliver 10, 20, 30
produce avg = 10 (counter 2), avg = 15 (counter 3), avg = 15 (counter 4);
the fourth cycle resets the counter to 1 and publishes ORPvalue = 15 without
consuming the fourth reading, which stays queued. -/
theorem averager_fold_amended :
    (runMain [rIn ("10")] initState).map (fun s => (s.avgORP, s.counter)) =
      some ((10 : ℚ), 2) ∧
    (runMain [rIn ("10"), rIn ("20")] initState).map (fun s => (s.avgORP, s.counter)) =
      some ((15 : ℚ), 3) ∧
    (runMain [rIn ("10"), rIn ("20"), rIn ("30")] initState).map
      (fun s => (s.avgORP, s.counter)) = some ((15 : ℚ), 4) ∧
    (runMain [rIn ("10"), rIn ("20"), rIn ("30"), rIn ("40")] initState).map
      (fun s => (s.ORPvalue, s.counter, s.rxLines)) = some ((15 : ℚ), 1, ["40"]) := by
  refine ⟨?_, ?_, ?_, ?_⟩ <;>
    simp [runMain, stepMain, rIn, mainCycle, enqueue, ReadButtons, classify, dispatch,
      averageStep, getORPdata, atof, atofCore, readDigits, fracDigits, digitVal,
      dataLoggerTick, initState, RIGHT_10BIT, UP_10BIT, DOWN_10BIT, LEFT_10BIT,
      SELECT_10BIT, HYSTERESIS] <;>
    norm_num

/-- C2: while logging is active, the periodic check emits nothing and leaves
the schedule alone before the due time, and at or after the due time emits
exactly one record carrying the published value and reschedules to
now + logFreq. -/
theorem dataLoggerTick_correct (now : Nat) (s : State) (hActive : s.logData = true) :
    ((now : ℤ) < s.nextDataPoint → dataLoggerTick now s = (s, [])) ∧
    (s.nextDataPoint ≤ (now : ℤ) →
      (dataLoggerTick now s).2 = [(now, s.ORPvalue)] ∧
      (dataLoggerTick now s).1 =
        { s with nextDataPoint := (now : ℤ) + s.logFreq }) := by
  constructor
  · intro h
    simp [dataLoggerTick, hActive, not_le.mpr h]
  · intro h
    simp [dataLoggerTick, hActive, h]

/-- The initial state with logging switched on, used to witness C2. -/
def activeInit : State := { initState with logData := true }

theorem dataLoggerTick_correct_witness :
    activeInit.logData = true ∧ activeInit.nextDataPoint ≤ ((0 : Nat) : ℤ) ∧
    (dataLoggerTick 0 activeInit).2 = [(0, activeInit.ORPvalue)] ∧
    (dataLoggerTick 0 activeInit).1 =
      { activeInit with nextDataPoint := ((0 : Nat) : ℤ) + activeInit.logFreq } := by
  have h := (dataLoggerTick_correct 0 activeInit rfl).2 (by simp [activeInit, initState])
  exact ⟨rfl, by simp [activeInit, initState], h.1, h.2⟩

/-- C3, counterexample: the value 123.45 (three integer digits) is rendered
starting at column 10, not 11, and a negative value is rendered at the same
column as the positive one of equal magnitude (the `orpPos = orpPos--`
statement leaves the column unchanged), not one further left. -/
theorem orpPos_counterexample :
    orpPos ((123.45 : ℚ)) = 10 ∧ orpPos (-(123.45 : ℚ)) = orpPos ((123.45 : ℚ)) := by
  have habs : ∀ v : ℚ, orpPos (-v) = orpPos v := by
    intro v
    simp [orpPos, neg_div, abs_neg]
  refine ⟨?_, habs _⟩
  have h1 : ¬ (1 ≤ |(123.45 : ℚ) / 1000|) := by
    rw [abs_of_nonneg (by norm_num)]
    norm_num
  have h2 : 1 ≤ |(123.45 : ℚ) / 100| := by
    rw [abs_of_nonneg (by norm_num)]
    norm_num
  simp [orpPos, h1, h2]

/-- C3, amended: every value with three integer digits (100 ≤ |v| < 1000) is
rendered starting at column 10 against the "mV" suffix fixed at column 14,
and a negative value uses the same column as the positive value of the same
magnitude. -/
theorem orpPos_amended :
    (∀ v : ℚ, 100 ≤ |v| → |v| < 1000 → orpPos v = 10) ∧
    (∀ v : ℚ, orpPos (-v) = orpPos v) ∧ mvCursorCol = 14 := by
  refine ⟨?_, ?_, rfl⟩
  · intro v h1 h2
    have h1000 : ¬ (1 ≤ |v / 1000|) := by
      rw [abs_div, abs_of_nonneg (by norm_num : (0:ℚ) ≤ 1000)]
      rw [not_le, div_lt_one (by norm_num)]
      exact h2
    have h100 : 1 ≤ |v / 100| := by
      rw [abs_div, abs_of_nonneg (by norm_num : (0:ℚ) ≤ 100)]
      rw [le_div_iff₀ (by norm_num)]
      simpa using h1
    simp [orpPos, h1000, h100]
  · intro v
    simp [orpPos, neg_div, abs_neg]

theorem orpPos_amended_witness :
    orpPos ((123.45 : ℚ)) = 10 ∧ orpPos (-(7 : ℚ)) = orpPos ((7 : ℚ)) ∧
      mvCursorCol = 14 := by
  refine ⟨orpPos_amended.1 123.45 ?_ ?_, orpPos_amended.2.1 7, orpPos_amended.2.2⟩
  · rw [abs_of_nonneg (by norm_num)]
    norm_num
  · rw [abs_of_nonneg (by norm_num)]
    norm_num

/-- C4, counterexample: the raw ADC value 10 lies within ±10 counts of
RIGHT's reference level 0, yet ReadButtons classifies it as BUTTON_NONE,
because the code uses the strict test v < RIGHT + HYSTERESIS. -/
theorem classify_counterexample :
    classify 10 = Button.none ∧ classify 10 ≠ Button.right ∧
      10 - RIGHT_10BIT ≤ HYSTERESIS := by
  refine ⟨by decide, by decide, by decide⟩

/-- C4, amended: RIGHT is returned exactly on v < 10 (a half-open band, not
±10); UP, DOWN, LEFT and SELECT exactly on the closed ±10 bands around their
reference levels; BUTTON_NONE exactly outside all five bands. -/
theorem classify_amended (v : Nat) :
    (classify v = Button.right ↔ v < 10) ∧
    (classify v = Button.up ↔ 135 ≤ v ∧ v ≤ 155) ∧
    (classify v = Button.down ↔ 319 ≤ v ∧ v ≤ 339) ∧
    (classify v = Button.left ↔ 495 ≤ v ∧ v ≤ 515) ∧
    (classify v = Button.select ↔ 731 ≤ v ∧ v ≤ 751) ∧
    (classify v = Button.none ↔
      ¬(v < 10 ∨ (135 ≤ v ∧ v ≤ 155) ∨ (319 ≤ v ∧ v ≤ 339) ∨
        (495 ≤ v ∧ v ≤ 515) ∨ (731 ≤ v ∧ v ≤ 751))) := by
  unfold classify RIGHT_10BIT UP_10BIT DOWN_10BIT LEFT_10BIT SELECT_10BIT HYSTERESIS
  split_ifs with h1 h2 h3 h4 h5 <;>
    refine ⟨?_, ?_, ?_, ?_, ?_, ?_⟩ <;> simp_all <;> omega

/-- C5, amended: in every reachable state at a poll-cycle boundary — in the
main loop and inside both modal sub-loops — the averaging counter lies in
[1,4]; the reset happens on the cycle after three folds, so the counter does
reach 4. -/
theorem counter_bounded (s : State) (h : Reachable s) :
    1 ≤ s.counter ∧ s.counter ≤ 4 := by
  induction h with
  | init => simp [initState]
  | step _ hs ih => exact counterInv_step ih hs

theorem counter_bounded_witness :
    1 ≤ initState.counter ∧ initState.counter ≤ 4 :=
  counter_bounded initState Reachable.init

/-- C5, counterexample: three no-button cycles from the initial state reach a
poll-cycle boundary with counter = 4, outside the claimed range [1,3]. -/
theorem counter_counterexample :
    ∃ s, Reachable s ∧ ¬(1 ≤ s.counter ∧ s.counter ≤ 3) := by
  have h : ∃ s, runMain [noInput, noInput, noInput] initState = some s ∧
      s.counter = 4 := by
    simp [runMain, stepMain, noInput, mainCycle, enqueue, ReadButtons, classify, dispatch,
      averageStep, getORPdata, atof, atofCore, readDigits, fracDigits, digitVal,
      dataLoggerTick, initState, RIGHT_10BIT, UP_10BIT, DOWN_10BIT, LEFT_10BIT,
      SELECT_10BIT, HYSTERESIS]
  obtain ⟨s, hrun, hc⟩ := h
  refine ⟨s, runMain_reachable _ _ _ Reachable.init hrun, ?_⟩
  omega

/-- C6: evaluating a full main-loop cycle at the failing input — the UP level
(ADC 145) sampled from the initial state — leaves buttonJustPressed still set
after the cycle's dispatch completes: the reset block of part_001 lines
319-323 sits after the final break inside the switch body and never runs. -/
theorem edgeFlags_not_cleared :
    (mainCycle ⟨145, Option.none, 0, [], []⟩ initState).map
      (fun p => (p.1.buttonJustPressed, p.1.buttonJustReleased)) =
      some (true, false) := by
  simp [mainCycle, enqueue, ReadButtons, classify, dispatch, averageStep, getORPdata,
    atof, atofCore, readDigits, fracDigits, digitVal, dataLoggerTick, initState,
    RIGHT_10BIT, UP_10BIT, DOWN_10BIT, LEFT_10BIT, SELECT_10BIT, HYSTERESIS]

/-- C7, counterexample: a cycle in which no sensor line has arrived still
advances the averager — from the initial state the counter moves from 1 to 2,
so the Averager state is not left unchanged by the cycle's sensor step. -/
theorem noResponse_counterexample :
    (mainCycle noInput initState).map (fun p => p.1.counter) = some 2 ∧
      (2 : Nat) ≠ initState.counter := by
  constructor
  · simp [mainCycle, noInput, enqueue, ReadButtons, classify, dispatch, averageStep,
      getORPdata, dataLoggerTick, initState, RIGHT_10BIT, UP_10BIT, DOWN_10BIT,
      LEFT_10BIT, SELECT_10BIT, HYSTERESIS]
  · decide

/-- C7, amended: in a no-button cycle in which no line has arrived and none is
pending, the cycle completes without error, getORPdata returns the stale
previously parsed value (the initial 0.0 if nothing was ever received), and
the averager still folds that stale value: the counter increments and avgORP
is recomputed, while sensor_data is untouched. -/
theorem noResponse_amended (s : State) (adc now : Nat)
    (hrx : s.rxLines = []) (hc : s.counter < 4) (hb : classify adc = Button.none) :
    ∃ r, mainCycle ⟨adc, Option.none, now, [], []⟩ s = some r ∧
      r.1.ORP = (if s.string_received then atof s.sensor_data else s.ORP) ∧
      r.1.avgORP = (s.avgORP + r.1.ORP) / (s.counter : ℚ) ∧
      r.1.counter = s.counter + 1 ∧
      r.1.sensor_data = s.sensor_data := by
  cases hsr : s.string_received <;>
    simp [mainCycle, enqueue, ReadButtons_eq, hb, dispatch, averageStep, getORPdata,
      hrx, hc, hsr, dataLoggerTick_ORP, dataLoggerTick_avgORP, dataLoggerTick_counter,
      dataLoggerTick_sensor_data]

theorem noResponse_amended_witness :
    initState.rxLines = [] ∧ initState.counter < 4 ∧ classify 1000 = Button.none ∧
    (∃ r, mainCycle ⟨1000, Option.none, 7, [], []⟩ initState = some r ∧
      r.1.ORP = (if initState.string_received then atof initState.sensor_data
        else initState.ORP) ∧
      r.1.avgORP = (initState.avgORP + r.1.ORP) / ((initState.counter : Nat) : ℚ) ∧
      r.1.counter = initState.counter + 1 ∧
      r.1.sensor_data = initState.sensor_data) :=
  ⟨rfl, by decide, by decide,
    noResponse_amended initState 1000 7 rfl (by decide) (by decide)⟩

/-- C8: the calibration session sends `C\r` as its first command and `E\r` as
its last; it completes exactly when some sampled input is LEFT; during the
session UP forwards `+\r`, DOWN forwards `-\r`, SELECT forwards `X\r`; and a
main-loop cycle whose sample is RIGHT enters the session, its first sensor
command being `C\r`, returning to the rest of the loop body afterwards. -/
theorem calibration_correct :
    (∀ inputs (s : State) r, startCalibration inputs s = some r →
        r.2.head? = some ("C\r") ∧ r.2.getLast? = some ("E\r")) ∧
    (∀ inputs (s : State), (∃ r, startCalibration inputs s = some r) ↔
        ∃ p ∈ inputs, classify p.1 = Button.left) ∧
    (∀ (inp : Nat × Option String) (s : State),
        (classify inp.1 = Button.up → ("+\r") ∈ (calibIter inp s).2.1) ∧
        (classify inp.1 = Button.down → ("-\r") ∈ (calibIter inp s).2.1) ∧
        (classify inp.1 = Button.select → ("X\r") ∈ (calibIter inp s).2.1)) ∧
    (∀ (inp : CycleInput) (s : State) r, classify inp.adc = Button.right →
        mainCycle inp s = some r → r.2.sensorCmds.head? = some ("C\r")) := by
  refine ⟨?_, ?_, ?_, ?_⟩
  · intro inputs s r hr
    exact ⟨startCalibration_head_cmd inputs s r hr,
      startCalibration_last_cmd inputs s r hr⟩
  · intro inputs s
    rw [startCalibration_some_iff]
    exact calibRun_exits_iff inputs s
  · intro inp s
    refine ⟨?_, ?_, ?_⟩ <;> intro hb <;> simp [calibIter, ReadButtons_fst, hb]
  · intro inp s r hb hm
    exact mainCycle_right_head inp s r hb hm

theorem calibration_correct_witness :
    ("+\r") ∈ (calibIter (145, Option.none) initState).2.1 ∧
    (∃ r, startCalibration [(505, Option.none)] initState = some r) := by
  constructor
  · exact (calibration_correct.2.2.1 (145, Option.none) initState).1 (by decide)
  · exact (calibration_correct.2.1 [(505, Option.none)] initState).mpr
      ⟨(505, Option.none), by simp, by decide⟩

/-- C9: in the log-frequency setter, UP adds 5 seconds (unclamped whenever the
interval already respects the floor), DOWN subtracts 5 with the silent floor
clamp at 5, every iteration leaves the interval at least 5, and the setter
completes exactly when some sampled input is RIGHT. -/
theorem setLogFreq_correct :
    (∀ (adc : Nat) (s : State), classify adc = Button.up → 5 ≤ s.logFreq →
        ((setLogFreqIter adc s).1).logFreq = s.logFreq + 5) ∧
    (∀ (adc : Nat) (s : State), classify adc = Button.down →
        ((setLogFreqIter adc s).1).logFreq =
          if s.logFreq - 5 < 5 then 5 else s.logFreq - 5) ∧
    (∀ (adc : Nat) (s : State), 5 ≤ ((setLogFreqIter adc s).1).logFreq) ∧
    (∀ inputs (s : State), (∃ r, setLogFreqRun inputs s = some r) ↔
        ∃ adc ∈ inputs, classify adc = Button.right) := by
  refine ⟨?_, ?_, ?_, ?_⟩
  · intro adc s hb h5
    simp [setLogFreqIter, ReadButtons_fst, hb, ReadButtons_logFreq]
    omega
  · intro adc s hb
    simp [setLogFreqIter, ReadButtons_fst, hb, ReadButtons_logFreq]
  · intro adc s
    simp only [setLogFreqIter, ReadButtons_logFreq]
    split_ifs <;> omega
  · intro inputs s
    exact setLogFreqRun_exits_iff inputs s

theorem setLogFreq_correct_witness :
    ((setLogFreqIter 145 initState).1).logFreq = initState.logFreq + 5 ∧
    ((setLogFreqIter 329 initState).1).logFreq = 5 ∧
    (∃ r, setLogFreqRun [0] initState = some r) := by
  refine ⟨setLogFreq_correct.1 145 initState (by decide) (by decide), ?_, ?_⟩
  · rw [setLogFreq_correct.2.1 329 initState (by decide)]
    decide
  · exact (setLogFreq_correct.2.2.2 [0] initState).mpr ⟨0, by simp, by decide⟩

/-- C10: the main-loop dispatch acts on the current button sample, not on the
justPressed edge: whatever the edge flags are, a cycle whose sample is SELECT
toggles logData, so two consecutive SELECT cycles toggle it twice and leave
logging in its original state. -/
theorem select_level_triggered (s : State) (adc n1 n2 : Nat) (l1 l2 : Option String)
    (hb : classify adc = Button.select) :
    ∃ r1 r2, mainCycle ⟨adc, l1, n1, [], []⟩ s = some r1 ∧
      r1.1.logData = !s.logData ∧
      mainCycle ⟨adc, l2, n2, [], []⟩ r1.1 = some r2 ∧
      r2.1.logData = s.logData := by
  obtain ⟨r1, h1, h1d⟩ := mainCycle_select ⟨adc, l1, n1, [], []⟩ s hb
  obtain ⟨r2, h2, h2d⟩ := mainCycle_select ⟨adc, l2, n2, [], []⟩ r1.1 hb
  exact ⟨r1, r2, h1, h1d, h2, by rw [h2d, h1d, Bool.not_not]⟩

theorem select_level_triggered_witness :
    ∃ r1 r2, mainCycle ⟨741, Option.none, 0, [], []⟩ initState = some r1 ∧
      r1.1.logData = !initState.logData ∧
      mainCycle ⟨741, Option.none, 0, [], []⟩ r1.1 = some r2 ∧
      r2.1.logData = initState.logData :=
  select_level_triggered initState 741 0 0 Option.none Option.none (by decide)

end ORPLogger
